import Mathlib

/-!
Verification of the SquirrelDB Python SDK protocol engine.

This file shallowly embeds the protocol engine of the SDK:

* `protocol.py` — frame codec, protocol flags, handshake parsing
  (`build_frame`, `parse_frame_header`, `ProtocolFlags`,
  `parse_handshake_response`);
* `tcp.py` — the TCP connection manager `SquirrelDBTcp`
  (pending-request correlation, subscription routing, receive loop,
  close, the `Subscription` async-iterator handle);
* `client.py` — the WebSocket client `SquirrelDB`
  (disconnect handling with reconnection backoff).

Bytes are modelled as `Nat` (each byte < 256 by construction where we
build them), byte strings as `List Nat`.  Python dictionaries become
association lists, `asyncio.Future` objects become an explicit
`FutureState`, exceptions become `Except` or explicit error values.
-/

namespace SquirrelDB

/-! Part: Frame codec (`protocol.py`) -/

/-- `MAX_MESSAGE_SIZE = 16 * 1024 * 1024` from `protocol.py`. -/
def MAX_MESSAGE_SIZE : Nat := 16 * 1024 * 1024

/-- `MessageType` enum from `protocol.py`: REQUEST, RESPONSE, NOTIFICATION. -/
inductive MessageType
  | request
  | response
  | notification
deriving DecidableEq, Repr

/-- Byte value of a `MessageType` (REQUEST = 1, RESPONSE = 2, NOTIFICATION = 3). -/
def MessageType.toByte : MessageType → Nat
  | .request => 1
  | .response => 2
  | .notification => 3

/-- `MessageType(b)` in Python: raises `ValueError` (here `none`) on an
unknown byte. -/
def MessageType.ofByte : Nat → Option MessageType
  | 1 => some .request
  | 2 => some .response
  | 3 => some .notification
  | _ => none

/-- `Encoding` enum from `protocol.py`: MESSAGEPACK = 1, JSON = 2. -/
inductive Encoding
  | messagepack
  | json
deriving DecidableEq, Repr

/-- Byte value of an `Encoding`. -/
def Encoding.toByte : Encoding → Nat
  | .messagepack => 1
  | .json => 2

/-- `Encoding(b)` in Python: `none` on an unknown byte. -/
def Encoding.ofByte : Nat → Option Encoding
  | 1 => some .messagepack
  | 2 => some .json
  | _ => none

/-- `struct.pack(">I", n)`: the four big-endian bytes of `n` (caller must
have `n < 2^32`; `build_frame` enforces it). -/
def pack_u32 (n : Nat) : List Nat :=
  [n / 2 ^ 24 % 256, n / 2 ^ 16 % 256, n / 2 ^ 8 % 256, n % 256]

/-- `struct.unpack(">I", bytes)`: recombine four big-endian bytes. -/
def unpack_u32 (b0 b1 b2 b3 : Nat) : Nat :=
  b0 * 2 ^ 24 + b1 * 2 ^ 16 + b2 * 2 ^ 8 + b3

/-- `build_frame(msg_type, encoding, payload)` from `protocol.py`:
4-byte big-endian length (`len(payload) + 2`), type byte, encoding byte,
payload.  `struct.pack(">I", ...)` raises (here `none`) when the length
does not fit in a u32. -/
def build_frame (msg_type : MessageType) (encoding : Encoding)
    (payload : List Nat) : Option (List Nat) :=
  let length := payload.length + 2
  if length < 2 ^ 32 then
    some (pack_u32 length ++ [msg_type.toByte, encoding.toByte] ++ payload)
  else
    none

/-- `parse_frame_header(data)` from `protocol.py`: `ValueError` (here
`none`) when fewer than 6 bytes or when the type or encoding byte is not
a member of its enum; otherwise `(length - 2, msg_type, encoding)`.
The subtraction is over `Int` because Python would return a negative
payload length for a declared length below 2. -/
def parse_frame_header (data : List Nat) :
    Option (Int × MessageType × Encoding) :=
  if data.length < 6 then none
  else
    let length := unpack_u32 (data.getD 0 0) (data.getD 1 0)
      (data.getD 2 0) (data.getD 3 0)
    match MessageType.ofByte (data.getD 4 0), Encoding.ofByte (data.getD 5 0) with
    | some t, some e => some ((length : Int) - 2, t, e)
    | _, _ => none

/-! Part: Protocol flags and handshake (`protocol.py`) -/

/-- `ProtocolFlags` dataclass from `protocol.py`. -/
structure ProtocolFlags where
  messagepack : Bool
  json_fallback : Bool
deriving DecidableEq, Repr

/-- `ProtocolFlags.to_byte`: bit 0 = messagepack, bit 1 = json_fallback. -/
def ProtocolFlags.to_byte (f : ProtocolFlags) : Nat :=
  (if f.messagepack then 1 else 0) ||| (if f.json_fallback then 2 else 0)

/-- `ProtocolFlags.from_byte`: `bool(byte & 0x01)`, `bool(byte & 0x02)`. -/
def ProtocolFlags.from_byte (b : Nat) : ProtocolFlags :=
  { messagepack := b &&& 1 ≠ 0, json_fallback := b &&& 2 ≠ 0 }

/-- `HandshakeStatus` enum: SUCCESS = 0, VERSION_MISMATCH = 1, AUTH_FAILED = 2. -/
inductive HandshakeStatus
  | success
  | versionMismatch
  | authFailed
deriving DecidableEq, Repr

/-- `HandshakeStatus(b)`: `none` on an unknown byte. -/
def HandshakeStatus.ofByte : Nat → Option HandshakeStatus
  | 0 => some .success
  | 1 => some .versionMismatch
  | 2 => some .authFailed
  | _ => none

/-- Errors raised while establishing a connection (`tcp.py` and the
`ValueError`s of `parse_handshake_response`). -/
inductive HandshakeErr
  | tooShort (got : Nat)
  | unknownStatusByte (b : Nat)
  | versionMismatchErr (server client : Nat)
  | authFailedErr
deriving DecidableEq, Repr

/-- `PROTOCOL_VERSION = 0x01` from `protocol.py`. -/
def PROTOCOL_VERSION : Nat := 1

/-- `parse_handshake_response(data)` from `protocol.py`: requires at least
19 bytes, reads status byte, version byte, flags byte, 16-byte session id. -/
def parse_handshake_response (data : List Nat) :
    Except HandshakeErr (HandshakeStatus × Nat × ProtocolFlags × List Nat) :=
  if data.length < 19 then .error (.tooShort data.length)
  else
    match HandshakeStatus.ofByte (data.getD 0 0) with
    | none => .error (.unknownStatusByte (data.getD 0 0))
    | some status =>
        .ok (status, data.getD 1 0, ProtocolFlags.from_byte (data.getD 2 0),
          (data.drop 3).take 16)

/-! Part: Connection manager state (`tcp.py`, class `SquirrelDBTcp`)

`self._pending : dict[str, asyncio.Future]` is split into the list of
keys currently in the dict (`pendingIds`) and the map from request id to
the state of the future created for that id (`futures`); the future object
outlives its removal from the dict because the awaiting caller holds it,
which is exactly what `futures` records.  Request ids are unique per
connection (`_next_id` increments a counter), so the id indexes the future. -/

/-- A decoded message body: Python dict with optional `id` and `type`
entries; `body` stands for the rest of the payload. -/
structure Msg where
  id : Option String
  type : Option String
  body : Nat
deriving DecidableEq, Repr

/-- Errors of `tcp.py` (all subclasses of `SquirrelDBError`). -/
inductive SdkErr
  | notConnected
  | disconnected (detail : String)
  | messageTooLarge (declared : Nat)
  | invalidTypeByte (b : Nat)
  | invalidEncodingByte (b : Nat)
  | truncated
  | keyError
  | serverError
deriving DecidableEq, Repr

/-- The state of one `asyncio.Future`. -/
inductive FutureState
  | pending
  | resolved (msg : Msg)
  | rejected (err : SdkErr)
  | cancelled
deriving DecidableEq, Repr

/-- Association-list lookup (`dict[k]` / `k in dict`). -/
def lookupA {α : Type} : List (String × α) → String → Option α
  | [], _ => none
  | (k, v) :: rest, key => if k = key then some v else lookupA rest key

/-- Overwrite the value at a key everywhere it occurs. -/
def updateA {α : Type} (m : List (String × α)) (k : String) (v : α) :
    List (String × α) :=
  m.map fun p => (p.1, if p.1 = k then v else p.2)

/-- `dict[k] = v`: overwrite if present, append otherwise. -/
def insertA {α : Type} (m : List (String × α)) (k : String) (v : α) :
    List (String × α) :=
  if (lookupA m k).isSome then updateA m k v else m ++ [(k, v)]

/-- `dict.pop(k, None)`: drop the entry at a key. -/
def removeA {α : Type} (m : List (String × α)) (k : String) :
    List (String × α) :=
  m.filter fun p => p.1 ≠ k

/-- `k in dict` for an optional key (`msg.get("id")` may be `None`,
which is never a key of the string-keyed maps). -/
def optKeyMem {α : Type} (m : List (String × α)) : Option String → Bool
  | some k => (lookupA m k).isSome
  | none => false

/-- State of a `SquirrelDBTcp` instance. `writer` is
`self._writer is not None`; `wire` logs every frame written to the socket
(message type, encoding, message). -/
structure TcpState where
  writer : Bool
  closed : Bool
  flags : ProtocolFlags
  encoding : Encoding
  sessionId : Option (List Nat)
  requestId : Nat
  pendingIds : List String
  futures : List (String × FutureState)
  subs : List (String × List Msg)
  wire : List (MessageType × Encoding × Msg)
deriving DecidableEq, Repr

/-- `SquirrelDBTcp.__init__(host, port, auth_token, use_messagepack,
json_fallback)` (connection-state part). -/
def tcp_init (use_messagepack json_fallback : Bool) : TcpState :=
  { writer := false
    closed := false
    flags := { messagepack := use_messagepack, json_fallback := json_fallback }
    encoding := if use_messagepack then .messagepack else .json
    sessionId := none
    requestId := 0
    pendingIds := []
    futures := []
    subs := []
    wire := [] }

/-- `SquirrelDBTcp._connect`, from the point where the 19-byte handshake
response has been read: parse it, check the status, adopt the server-side
negotiated flags to pick the session encoding
(`self._encoding = Encoding.MESSAGEPACK if flags.messagepack else Encoding.JSON`). -/
def tcp_connect (s : TcpState) (response : List Nat) :
    Except HandshakeErr TcpState :=
  match parse_handshake_response response with
  | .error e => .error e
  | .ok (status, version, flags, session_id) =>
      match status with
      | .versionMismatch => .error (.versionMismatchErr version PROTOCOL_VERSION)
      | .authFailed => .error .authFailedErr
      | .success =>
          .ok { s with
            writer := true
            sessionId := some session_id
            encoding := if flags.messagepack then .messagepack else .json }

/-- `SquirrelDBTcp._dispatch_message(msg, msg_type)`: a `change` message
whose id is a live subscription is enqueued on the queue of that subscription;
otherwise, if the id is a pending request, the entry is popped and the
future completed with the message (idempotent: only if not already done);
otherwise nothing happens. -/
def dispatch_message (s : TcpState) (msg : Msg) : TcpState :=
  if msg.type = some "change" ∧ optKeyMem s.subs msg.id then
    match msg.id with
    | some k =>
        { s with subs := s.subs.map fun p =>
            (p.1, if p.1 = k then p.2 ++ [msg] else p.2) }
    | none => s
  else if msg.id.any (fun k => k ∈ s.pendingIds) then
    match msg.id with
    | some k =>
        { s with
          pendingIds := s.pendingIds.filter (· ≠ k)
          futures :=
            match lookupA s.futures k with
            | some .pending => updateA s.futures k (.resolved msg)
            | _ => s.futures }
    | none => s
  else s

/-- Only the `except Exception` arm of `SquirrelDBTcp._receive_loop`
(lines 151-157): when the connection was not intentionally closed,
complete every still-pending future with `ConnectionError(str(e))` and
clear the pending map.  This is not the whole exit behaviour of the
loop - `recv_loop_exit` below covers all three `except` arms. -/
def handle_recv_error (s : TcpState) (detail : String) : TcpState :=
  if s.closed then s
  else
    { s with
      futures := s.futures.map fun p =>
        (p.1, if p.1 ∈ s.pendingIds ∧ p.2 = .pending
          then .rejected (.disconnected detail) else p.2)
      pendingIds := [] }

/-- How the `while` body of `SquirrelDBTcp._receive_loop` can terminate
exceptionally: `asyncio.IncompleteReadError` from a `readexactly` (the
peer closed the socket - at a frame boundary or mid-frame),
`asyncio.CancelledError` (the task was cancelled, e.g. by `close()`),
or any other exception. -/
inductive RecvExit
  | incompleteRead
  | taskCancelled
  | exc (detail : String)
deriving DecidableEq, Repr

/-- The three `except` arms of `SquirrelDBTcp._receive_loop` (lines
147-157): `IncompleteReadError` and `CancelledError` are swallowed by
`pass` - the loop just ends and the state is untouched, so on an EOF
disconnect (even a mid-frame truncation) no pending future is ever
completed; only any other exception runs the rejection code of
`handle_recv_error`. -/
def recv_loop_exit (s : TcpState) (e : RecvExit) : TcpState :=
  match e with
  | .incompleteRead => s
  | .taskCancelled => s
  | .exc detail => handle_recv_error s detail

/-- `SquirrelDBTcp._send(msg)` up to the write: fails with
`ConnectionError("Not connected")` when `self._writer` is `None`,
otherwise registers a fresh pending future under `msg["id"]`
(a missing id would raise `KeyError`), builds the frame and writes it. -/
def send_msg (s : TcpState) (msg : Msg) : Except SdkErr TcpState :=
  if s.writer = false then .error .notConnected
  else
    match msg.id with
    | none => .error .keyError
    | some k =>
        .ok { s with
          pendingIds :=
            if k ∈ s.pendingIds then s.pendingIds else s.pendingIds ++ [k]
          futures := insertA s.futures k .pending
          wire := s.wire ++ [(.request, s.encoding, msg)] }

/-- `SquirrelDBTcp.close()`: sets `_closed`, clears the subscription map,
cancels every not-yet-done pending future, clears the pending map.
`self._writer` keeps its value: the stream is closed but the attribute is
never reset. -/
def tcp_close (s : TcpState) : TcpState :=
  { s with
    closed := true
    subs := []
    futures := s.futures.map fun p =>
      (p.1, if p.1 ∈ s.pendingIds ∧ p.2 = .pending then .cancelled else p.2)
    pendingIds := [] }

/-- `SquirrelDBTcp.subscribe(q)`, phase 1: pick `sub_id = self._next_id()`
and send the subscribe request.  The subscription map is untouched here. -/
def subscribe_send (s : TcpState) : Except SdkErr (TcpState × String) :=
  let subId := toString (s.requestId + 1)
  let s1 := { s with requestId := s.requestId + 1 }
  match send_msg s1 { id := some subId, type := some "subscribe", body := 0 } with
  | .error e => .error e
  | .ok s2 => .ok (s2, subId)

/-- `SquirrelDBTcp.subscribe(q)`, phase 2, run only once the response
future has resolved: raise on a server error, otherwise create the empty
delivery queue and register it under `sub_id`. -/
def subscribe_complete (s : TcpState) (subId : String) (resp : Msg) :
    Except SdkErr TcpState :=
  if resp.type = some "error" then .error .serverError
  else .ok { s with subs := insertA s.subs subId [] }

/-- `SquirrelDBTcp.unsubscribe(subscription_id)`: drop the queue from the
subscription map, then (when a writer exists) send the unsubscribe frame. -/
def tcp_unsubscribe (s : TcpState) (subId : String) : TcpState :=
  let s1 := { s with subs := removeA s.subs subId }
  if s1.writer then
    { s1 with wire := s1.wire ++
        [(.request, s1.encoding,
          { id := some subId, type := some "unsubscribe", body := 0 })] }
  else s1

/-! Part: One iteration of the receive loop (`tcp.py`, `_receive_loop`) -/

/-- The u32 declared in the first four bytes of a frame header. -/
def declared_length (stream : List Nat) : Nat :=
  unpack_u32 (stream.getD 0 0) (stream.getD 1 0) (stream.getD 2 0)
    (stream.getD 3 0)

/-- One iteration of `SquirrelDBTcp._receive_loop` over the incoming byte
stream: read exactly 6 header bytes (an incomplete read means the stream
closed), parse length / type / encoding (an unknown type or encoding byte
raises `ValueError`), reject declared lengths above `MAX_MESSAGE_SIZE`
with the "Message too large" `SquirrelDBError`, then read exactly
`length - 2` payload bytes.  Returns the parsed frame and the rest of
the stream. -/
def recv_frame (stream : List Nat) :
    Except SdkErr (MessageType × Encoding × List Nat × List Nat) :=
  if stream.length < 6 then .error .truncated
  else
    let length := declared_length stream
    match MessageType.ofByte (stream.getD 4 0) with
    | none => .error (.invalidTypeByte (stream.getD 4 0))
    | some t =>
        match Encoding.ofByte (stream.getD 5 0) with
        | none => .error (.invalidEncodingByte (stream.getD 5 0))
        | some e =>
            if length > MAX_MESSAGE_SIZE then
              .error (.messageTooLarge length)
            else
              let rest := stream.drop 6
              if rest.length < length - 2 then .error .truncated
              else .ok (t, e, rest.take (length - 2), rest.drop (length - 2))

/-! Part: Subscription handle (`tcp.py`, class `Subscription`) -/

/-- Caller-held subscription handle: `Subscription(sub_id, queue, client)`
with its private `_closed` flag.  The queue object is shared with the
subscription map of the client and is passed explicitly below. -/
structure SubHandle where
  id : String
  closed : Bool
deriving DecidableEq, Repr

/-- The observable outcome of one `__anext__` call. -/
inductive AnextOutcome
  | stop
  | item (m : Msg)
  | blocked
deriving DecidableEq, Repr

/-- `Subscription.__anext__`: raise `StopAsyncIteration` when the handle
is closed; otherwise `await self._queue.get()`, which returns the head of
a non-empty queue and suspends indefinitely on an empty one. -/
def sub_anext (h : SubHandle) (queue : List Msg) :
    AnextOutcome × List Msg :=
  if h.closed then (.stop, queue)
  else
    match queue with
    | [] => (.blocked, [])
    | m :: rest => (.item m, rest)

/-- The handle part of `Subscription.unsubscribe`: `self._closed = True`
(it then calls `SquirrelDBTcp.unsubscribe`, i.e. `tcp_unsubscribe`). -/
def sub_handle_close (h : SubHandle) : SubHandle :=
  { h with closed := true }

/-! Part: WebSocket client (`client.py`, class `SquirrelDB`)

Only the disconnect/reconnect path is relevant to the claims.  `recvActive`
records whether a `_receive_loop` task is running (its end is what fires
`_handle_disconnect`); `wsConnected` is `self._ws is not None`. -/

/-- State of a `SquirrelDB` (WebSocket) instance. -/
structure WsState where
  closed : Bool
  reconnect : Bool
  maxReconnectAttempts : Nat
  reconnectDelay : ℚ
  reconnectAttempts : Nat
  wsConnected : Bool
  recvActive : Bool
  pendingIds : List String
  futures : List (String × FutureState)
deriving DecidableEq, Repr

/-- `SquirrelDB._handle_disconnect`, with `connectOk` the outcome of the
single `await self._connect()` it may perform: when not intentionally
closed, reject every still-pending future with
`ConnectionError("Connection closed")` and clear the pending map; then,
if reconnection is enabled and the attempt counter is below the limit,
increment the counter, wait `reconnect_delay * 2 ** (attempts - 1)`, and
try `_connect` exactly once (a success resets the counter to zero and
starts a new receive loop; a failure is swallowed and nothing retries).
Returns the new state and the list of backoff delays waited, one entry
per handshake attempt made. -/
def ws_handle_disconnect (s : WsState) (connectOk : Bool) :
    WsState × List ℚ :=
  if s.closed then (s, [])
  else
    let s1 : WsState := { s with
      futures := s.futures.map fun p =>
        (p.1, if p.1 ∈ s.pendingIds ∧ p.2 = .pending
          then .rejected (.disconnected "Connection closed") else p.2)
      pendingIds := [] }
    if s1.reconnect ∧ s1.reconnectAttempts < s1.maxReconnectAttempts then
      let attempt := s1.reconnectAttempts + 1
      let delay := s1.reconnectDelay * 2 ^ (attempt - 1)
      if connectOk then
        ({ s1 with
            reconnectAttempts := 0
            wsConnected := true
            recvActive := true }, [delay])
      else
        ({ s1 with
            reconnectAttempts := attempt
            recvActive := false }, [delay])
    else
      ({ s1 with recvActive := false }, [])

/-- Modelled from the spec (refinement comparison for the reconnection
claim): repeated handshake attempts after one unexpected disconnect,
waiting `baseDelay * 2^(attempt-1)` before the attempt numbered `attempt`,
until an attempt succeeds or `maxAttempts` attempts have been made.
`oracle n` is the outcome of attempt number `n`; the result is the list
of delays waited, one per attempt made. -/
def claimed_retry_go (baseDelay : ℚ) (oracle : Nat → Bool) :
    Nat → Nat → List ℚ
  | 0, _ => []
  | fuel + 1, attempt =>
      baseDelay * 2 ^ (attempt - 1) ::
        (if oracle attempt then [] else claimed_retry_go baseDelay oracle fuel (attempt + 1))

/-- Modelled from the spec: the delays of the retry loop described by the
spec, starting at attempt number 1. -/
def claimed_retry_delays (baseDelay : ℚ) (maxAttempts : Nat)
    (oracle : Nat → Bool) : List ℚ :=
  claimed_retry_go baseDelay oracle maxAttempts 1

/-! Part: Helper lemmas on association lists and byte packing -/

deriving instance DecidableEq for Except

theorem lookupA_map_pair {α : Type} (g : String → α → α) :
    ∀ (m : List (String × α)) (k : String),
      lookupA (m.map fun p => (p.1, g p.1 p.2)) k = (lookupA m k).map (g k)
  | [], _ => rfl
  | (a, b) :: rest, k => by
      by_cases h : a = k
      · subst h; simp [lookupA]
      · simp [lookupA, h, lookupA_map_pair g rest k]

theorem lookupA_updateA {α : Type} (v : α) (m : List (String × α)) (k j : String) :
    lookupA (updateA m k v) j =
      (lookupA m j).map fun w => if j = k then v else w := by
  unfold updateA
  exact lookupA_map_pair (fun a w => if a = k then v else w) m j

theorem lookupA_updateA_self {α : Type} (v w : α) (m : List (String × α))
    (k : String) (h : lookupA m k = some w) :
    lookupA (updateA m k v) k = some v := by
  rw [lookupA_updateA, h]
  simp

theorem lookupA_updateA_ne {α : Type} (v : α) (m : List (String × α))
    (k j : String) (h : j ≠ k) :
    lookupA (updateA m k v) j = lookupA m j := by
  rw [lookupA_updateA]
  cases lookupA m j <;> simp [h]

theorem lookupA_removeA_self {α : Type} :
    ∀ (m : List (String × α)) (k : String), lookupA (removeA m k) k = none
  | [], _ => rfl
  | (a, b) :: rest, k => by
      by_cases hak : a = k
      · subst hak
        simpa [removeA, List.filter_cons] using lookupA_removeA_self rest a
      · have ih := lookupA_removeA_self rest k
        simp only [removeA, List.filter_cons, ne_eq, decide_not] at ih ⊢
        simp [hak, lookupA, ih]

theorem unpack_pack (n : Nat) (h : n < 2 ^ 32) :
    unpack_u32 (n / 2 ^ 24 % 256) (n / 2 ^ 16 % 256) (n / 2 ^ 8 % 256)
      (n % 256) = n := by
  unfold unpack_u32
  omega

theorem msgType_ofByte_toByte (t : MessageType) :
    MessageType.ofByte t.toByte = some t := by
  cases t <;> rfl

theorem enc_ofByte_toByte (e : Encoding) :
    Encoding.ofByte e.toByte = some e := by
  cases e <;> rfl

/-! Part: The claims -/

/-- C2: for every message type, encoding and payload with
`len(payload) + 2` representable as a u32, parsing the header of the
frame built by `build_frame` yields exactly
`(len(payload), messageType, encoding)`. -/
theorem frame_header_roundtrip (t : MessageType) (e : Encoding)
    (payload : List Nat) (h : payload.length + 2 < 2 ^ 32) :
    (build_frame t e payload).bind parse_frame_header =
      some ((payload.length : Int), t, e) := by
  have hb : build_frame t e payload =
      some (pack_u32 (payload.length + 2) ++ [t.toByte, e.toByte] ++ payload) := by
    simp only [build_frame]
    rw [if_pos h]
  rw [hb, Option.some_bind]
  simp only [pack_u32, List.cons_append, List.nil_append, parse_frame_header]
  rw [if_neg (by simp only [List.length_cons]; omega)]
  simp only [List.getD_cons_zero, List.getD_cons_succ]
  rw [msgType_ofByte_toByte, enc_ofByte_toByte, unpack_pack _ h]
  simp only [Option.some.injEq, Prod.mk.injEq, and_true]
  push_cast
  ring

/-- Witness for C2 at a concrete frame. -/
theorem frame_header_roundtrip_witness :
    [10, 20, 30].length + 2 < 2 ^ 32 ∧
    (build_frame .request .messagepack [10, 20, 30]).bind parse_frame_header =
      some (([10, 20, 30].length : Int), .request, .messagepack) :=
  ⟨by norm_num,
    frame_header_roundtrip .request .messagepack [10, 20, 30] (by norm_num)⟩


theorem dispatch_futures_of_no_pending (s : TcpState) (hp : s.pendingIds = [])
    (msg : Msg) : (dispatch_message s msg).futures = s.futures := by
  have hany : msg.id.any (fun k => k ∈ s.pendingIds) = false := by
    cases msg.id <;> simp [hp]
  unfold dispatch_message
  split
  · cases hid : msg.id <;> simp [hid]
  · rw [if_neg (by simp [hany])]

/-- C1 (amended): while the connection is not intentionally closed, a
receive-loop exception other than an incomplete read or a cancellation
completes every still-pending request future with the disconnect error,
clears the pending map, and no message dispatched afterwards changes any
future; but an EOF disconnect (`asyncio.IncompleteReadError`, raised even
for a mid-frame truncation) and a cancellation are swallowed by `pass`:
the loop exits with the state - pending map and futures included -
completely untouched, so no pending future is ever completed. -/
theorem disconnect_rejects_all_pending (s : TcpState) (detail : String)
    (h : s.closed = false) :
    (∀ i ∈ s.pendingIds, lookupA s.futures i = some .pending →
        lookupA (recv_loop_exit s (.exc detail)).futures i =
          some (.rejected (.disconnected detail))) ∧
    (recv_loop_exit s (.exc detail)).pendingIds = [] ∧
    (∀ msg : Msg,
        (dispatch_message (recv_loop_exit s (.exc detail)) msg).futures =
          (recv_loop_exit s (.exc detail)).futures) ∧
    recv_loop_exit s .incompleteRead = s ∧
    recv_loop_exit s .taskCancelled = s := by
  show (∀ i ∈ s.pendingIds, lookupA s.futures i = some .pending →
        lookupA (handle_recv_error s detail).futures i =
          some (.rejected (.disconnected detail))) ∧
    (handle_recv_error s detail).pendingIds = [] ∧
    (∀ msg : Msg,
        (dispatch_message (handle_recv_error s detail) msg).futures =
          (handle_recv_error s detail).futures) ∧
    s = s ∧ s = s
  have hs : handle_recv_error s detail = { s with
      futures := s.futures.map fun p =>
        (p.1, if p.1 ∈ s.pendingIds ∧ p.2 = .pending
          then .rejected (.disconnected detail) else p.2)
      pendingIds := [] } := by
    unfold handle_recv_error
    rw [if_neg (by simp [h])]
  refine ⟨?_, ?_, ?_, rfl, rfl⟩
  · intro i hi hf
    rw [hs]
    show lookupA (s.futures.map fun p =>
      (p.1, if p.1 ∈ s.pendingIds ∧ p.2 = .pending
        then .rejected (.disconnected detail) else p.2)) i = _
    rw [lookupA_map_pair
      (fun a w => if a ∈ s.pendingIds ∧ w = .pending
        then .rejected (.disconnected detail) else w) s.futures i, hf]
    simp [hi]
  · rw [hs]
  · intro msg
    exact dispatch_futures_of_no_pending _ (by rw [hs]) msg

theorem dispatch_message_id_not_found (s : TcpState) (msg : Msg)
    (h1 : optKeyMem s.subs msg.id = false)
    (h2 : msg.id.any (fun k => k ∈ s.pendingIds) = false) :
    dispatch_message s msg = s := by
  unfold dispatch_message
  rw [if_neg (by simp [h1]), if_neg (by simp [h2])]

/-- C7: dispatching a message whose id is in neither the pending map nor
the subscription map leaves the whole state unchanged; in particular a
notification for a subscription id arriving after `unsubscribe(id)` is a
no-op. -/
theorem dispatch_unknown_id_noop (s : TcpState) (msg note : Msg) (subId : String)
    (h1 : optKeyMem s.subs msg.id = false)
    (h2 : msg.id.any (fun k => k ∈ s.pendingIds) = false)
    (h3 : note.id = some subId)
    (h4 : subId ∉ s.pendingIds) :
    dispatch_message s msg = s ∧
    dispatch_message (tcp_unsubscribe s subId) note = tcp_unsubscribe s subId := by
  have hsubs : (tcp_unsubscribe s subId).subs = removeA s.subs subId := by
    unfold tcp_unsubscribe
    by_cases hw : s.writer = true <;> simp [hw]
  have hpend : (tcp_unsubscribe s subId).pendingIds = s.pendingIds := by
    unfold tcp_unsubscribe
    by_cases hw : s.writer = true <;> simp [hw]
  refine ⟨dispatch_message_id_not_found s msg h1 h2, ?_⟩
  apply dispatch_message_id_not_found
  · rw [h3, hsubs]
    show (lookupA (removeA s.subs subId) subId).isSome = false
    rw [lookupA_removeA_self]
    rfl
  · rw [h3, hpend]
    simp [h4]

/-- C3: with two in-flight requests under distinct ids `a` and `b`,
dispatching the response carrying `b` and then the response carrying `a`
resolves each future with its own response — correlation depends only on
the id field, not on send or arrival order. -/
theorem correlation_order_independent (s : TcpState) (a b : String)
    (ra rb : Msg) (hab : a ≠ b)
    (hia : ra.id = some a) (hib : rb.id = some b)
    (hta : ra.type ≠ some "change") (htb : rb.type ≠ some "change")
    (hpa : a ∈ s.pendingIds) (hpb : b ∈ s.pendingIds)
    (hfa : lookupA s.futures a = some .pending)
    (hfb : lookupA s.futures b = some .pending) :
    lookupA (dispatch_message (dispatch_message s rb) ra).futures a =
      some (.resolved ra) ∧
    lookupA (dispatch_message (dispatch_message s rb) ra).futures b =
      some (.resolved rb) := by
  have h1 : dispatch_message s rb = { s with
      pendingIds := s.pendingIds.filter (· ≠ b)
      futures := updateA s.futures b (.resolved rb) } := by
    unfold dispatch_message
    rw [if_neg (by simp [htb]), if_pos (by simp [hib, hpb])]
    simp only [hib, hfb]
  have hfa1 : lookupA (updateA s.futures b (.resolved rb)) a = some .pending := by
    rw [lookupA_updateA_ne _ _ _ _ hab, hfa]
  have h2 : dispatch_message (dispatch_message s rb) ra = { s with
      pendingIds := (s.pendingIds.filter (· ≠ b)).filter (· ≠ a)
      futures := updateA (updateA s.futures b (.resolved rb)) a (.resolved ra) } := by
    rw [h1]
    unfold dispatch_message
    rw [if_neg (by simp [hta]),
      if_pos (by simp [hia, List.mem_filter, hpa, hab])]
    simp only [hia, hfa1]
  rw [h2]
  constructor
  · exact lookupA_updateA_self _ _ _ _ hfa1
  · show lookupA (updateA (updateA s.futures b (.resolved rb)) a (.resolved ra)) b = _
    rw [lookupA_updateA_ne _ _ _ _ (fun hba => hab hba.symm)]
    exact lookupA_updateA_self _ _ _ _ hfb


/-- C10: `subscribe` inserts the delivery queue into the subscription map
only after the response has resolved (phase 1 leaves the map unchanged),
and a change notification whose id is absent from the subscription map is
never enqueued — if the subscribe request is still pending under that id,
it completes the pending future instead. -/
theorem subscription_registered_only_after_response (s s1 t : TcpState)
    (subId : String) (msg : Msg)
    (hsend : subscribe_send s = .ok (s1, subId))
    (hid : msg.id = some subId) (hty : msg.type = some "change")
    (hnosub : lookupA t.subs subId = none) :
    s1.subs = s.subs ∧
    (dispatch_message t msg).subs = t.subs ∧
    (subId ∈ t.pendingIds → lookupA t.futures subId = some .pending →
      lookupA (dispatch_message t msg).futures subId = some (.resolved msg)) := by
  refine ⟨?_, ?_, ?_⟩
  · unfold subscribe_send send_msg at hsend
    dsimp only at hsend
    by_cases hw : s.writer = false
    · rw [if_pos hw] at hsend
      simp at hsend
    · rw [if_neg hw] at hsend
      simp only [Except.ok.injEq, Prod.mk.injEq] at hsend
      obtain ⟨h1, h2⟩ := hsend
      rw [← h1]
  · unfold dispatch_message
    rw [if_neg (by simp [hid, optKeyMem, hnosub])]
    split
    · simp [hid]
    · rfl
  · intro hp hf
    unfold dispatch_message
    rw [if_neg (by simp [hid, optKeyMem, hnosub]), if_pos (by simp [hid, hp])]
    simp only [hid, hf]
    exact lookupA_updateA_self _ _ _ _ hf

/-- C4 (amended): after a successful handshake the session body encoding
is binary if and only if the flags negotiated by the server support
binary encoding; the client preference is not consulted at adoption
time. -/
theorem encoding_negotiated_from_server_flags (s s2 : TcpState)
    (response : List Nat) (st : HandshakeStatus) (ver : Nat)
    (flags : ProtocolFlags) (sid : List Nat)
    (h : tcp_connect s response = .ok s2)
    (hp : parse_handshake_response response = .ok (st, ver, flags, sid)) :
    (s2.encoding = .messagepack ↔ flags.messagepack = true) := by
  unfold tcp_connect at h
  rw [hp] at h
  cases st
  · simp only [Except.ok.injEq] at h
    subst h
    cases hmp : flags.messagepack <;> simp [hmp]
  · simp at h
  · simp at h

def hs_response_mp_only : List Nat := 0 :: 1 :: 1 :: List.replicate 16 0

theorem encoding_negotiation_counterexample :
    ((tcp_connect (tcp_init false true) hs_response_mp_only).map
        fun s => s.encoding) = .ok .messagepack ∧
    (tcp_init false true).flags.messagepack = false := by
  exact ⟨rfl, rfl⟩

def hs_response_both : List Nat := 0 :: 1 :: 3 :: List.replicate 16 0

def connectedExample : TcpState := { tcp_init true true with
  writer := true
  sessionId := some (List.replicate 16 0)
  encoding := .messagepack }

theorem encoding_negotiated_from_server_flags_witness :
    connectedExample.encoding = .messagepack ↔
      (ProtocolFlags.from_byte 3).messagepack = true :=
  encoding_negotiated_from_server_flags (tcp_init true true) connectedExample
    hs_response_both .success 1 (ProtocolFlags.from_byte 3) (List.replicate 16 0)
    (by rfl) (by rfl)

def exMsgA : Msg := { id := some "1", type := some "result", body := 10 }

def exMsgB : Msg := { id := some "2", type := some "result", body := 20 }

def exPendingState : TcpState := { connectedExample with
  requestId := 2
  pendingIds := ["1", "2"]
  futures := [("1", .pending), ("2", .pending)] }

theorem disconnect_rejects_all_pending_witness :
    exPendingState.closed = false ∧
    lookupA (recv_loop_exit exPendingState (.exc "reset")).futures "1" =
      some (.rejected (.disconnected "reset")) :=
  ⟨rfl, (disconnect_rejects_all_pending exPendingState "reset" rfl).1 "1"
    (by decide) (by decide)⟩

/-- C1 counterexample: an EOF disconnect - the receive loop ends with
`asyncio.IncompleteReadError` while the connection was not intentionally
closed - leaves the state untouched: the pending map still holds both
requests and their futures are still pending, never completed with a
disconnect error (and nothing runs afterwards to complete them). -/
theorem eof_disconnect_leaves_pending_counterexample :
    exPendingState.closed = false ∧
    lookupA exPendingState.futures "1" = some .pending ∧
    recv_loop_exit exPendingState .incompleteRead = exPendingState ∧
    lookupA (recv_loop_exit exPendingState .incompleteRead).futures "1" =
      some .pending ∧
    (recv_loop_exit exPendingState .incompleteRead).pendingIds = ["1", "2"] :=
  ⟨rfl, by decide, rfl, by decide, by decide⟩

theorem correlation_order_independent_witness :
    lookupA (dispatch_message (dispatch_message exPendingState exMsgB)
        exMsgA).futures "1" = some (.resolved exMsgA) ∧
    lookupA (dispatch_message (dispatch_message exPendingState exMsgB)
        exMsgA).futures "2" = some (.resolved exMsgB) :=
  correlation_order_independent exPendingState "1" "2" exMsgA exMsgB
    (by decide) rfl rfl (by decide) (by decide) (by decide) (by decide)
    (by decide) (by decide)

def exSubState : TcpState := { connectedExample with
  requestId := 7
  pendingIds := ["3"]
  futures := [("3", .pending)]
  subs := [("7", [])] }

def exUnknownMsg : Msg := { id := some "9", type := some "result", body := 0 }

def exNote : Msg := { id := some "7", type := some "change", body := 1 }

theorem dispatch_unknown_id_noop_witness :
    dispatch_message exSubState exUnknownMsg = exSubState ∧
    dispatch_message (tcp_unsubscribe exSubState "7") exNote =
      tcp_unsubscribe exSubState "7" :=
  dispatch_unknown_id_noop exSubState exUnknownMsg exNote "7"
    (by decide) (by decide) rfl (by decide)

def exChange1 : Msg := { id := some "1", type := some "change", body := 5 }

def exSubscribeSent : TcpState := { connectedExample with
  requestId := 1
  pendingIds := ["1"]
  futures := [("1", .pending)]
  wire := [(.request, .messagepack,
    { id := some "1", type := some "subscribe", body := 0 })] }

theorem subscription_registered_only_after_response_witness :
    exSubscribeSent.subs = connectedExample.subs ∧
    lookupA (dispatch_message exSubscribeSent exChange1).futures "1" =
      some (.resolved exChange1) :=
  ⟨(subscription_registered_only_after_response connectedExample exSubscribeSent
      exSubscribeSent "1" exChange1 (by decide) rfl rfl (by decide)).1,
   (subscription_registered_only_after_response connectedExample exSubscribeSent
      exSubscribeSent "1" exChange1 (by decide) rfl rfl (by decide)).2.2
      (by decide) (by decide)⟩


def pingMsg : Msg := { id := some "10", type := some "ping", body := 0 }

/-- C5 counterexample: after `close()` the closed flag is set, yet `_send`
does not fail with `NotConnected` — it registers a pending request and
writes a frame, because `self._writer` is still set. -/
theorem send_after_close_counterexample :
    (tcp_close connectedExample).closed = true ∧
    send_msg (tcp_close connectedExample) pingMsg ≠ .error .notConnected ∧
    (send_msg (tcp_close connectedExample) pingMsg).toOption.map
      (fun s => s.pendingIds) = some ["10"] ∧
    (send_msg (tcp_close connectedExample) pingMsg).toOption.map
      (fun s => s.wire.length) = some 1 := by
  refine ⟨rfl, by decide, rfl, rfl⟩

/-- C5 (amended): `_send` fails with `NotConnected` exactly when the
writer was never established (`self._writer is None`); whenever a writer
exists — including after `close()` — it registers the pending request and
writes the frame. -/
theorem send_not_connected_iff_no_writer (s : TcpState) (msg : Msg)
    (k : String) (hid : msg.id = some k) :
    (send_msg s msg = .error .notConnected ↔ s.writer = false) ∧
    (s.writer = true → send_msg s msg = .ok { s with
        pendingIds :=
          if k ∈ s.pendingIds then s.pendingIds else s.pendingIds ++ [k]
        futures := insertA s.futures k .pending
        wire := s.wire ++ [(.request, s.encoding, msg)] }) := by
  cases hw : s.writer
  · exact ⟨by simp [send_msg, hw], by simp [hw]⟩
  · refine ⟨by simp [send_msg, hw, hid], fun _ => ?_⟩
    simp [send_msg, hw, hid]

theorem send_not_connected_iff_no_writer_witness :
    pingMsg.id = some "10" ∧
    (send_msg connectedExample pingMsg = .error .notConnected ↔
      connectedExample.writer = false) :=
  ⟨rfl, (send_not_connected_iff_no_writer connectedExample pingMsg "10" rfl).1⟩

/-- C8: a received frame with valid type and encoding bytes whose header
declares a length above `MAX_MESSAGE_SIZE` (16 MiB) is rejected with the
"Message too large" error, and a frame whose declared length is at or
below the limit is never rejected for size. -/
theorem oversized_frame_rejected (stream : List Nat)
    (h6 : ¬ stream.length < 6)
    (ht : (MessageType.ofByte (stream.getD 4 0)).isSome = true)
    (he : (Encoding.ofByte (stream.getD 5 0)).isSome = true) :
    (declared_length stream > MAX_MESSAGE_SIZE →
      recv_frame stream = .error (.messageTooLarge (declared_length stream))) ∧
    (¬ declared_length stream > MAX_MESSAGE_SIZE →
      ∀ n, recv_frame stream ≠ .error (.messageTooLarge n)) := by
  obtain ⟨t, hts⟩ := Option.isSome_iff_exists.mp ht
  obtain ⟨e, hes⟩ := Option.isSome_iff_exists.mp he
  constructor
  · intro hbig
    unfold recv_frame
    rw [if_neg h6]
    dsimp only
    rw [hts, hes]
    dsimp only
    rw [if_pos hbig]
  · intro hsmall n
    unfold recv_frame
    rw [if_neg h6]
    dsimp only
    rw [hts, hes]
    dsimp only
    rw [if_neg hsmall]
    split <;> simp

theorem oversized_frame_rejected_witness :
    ¬ ([255, 255, 255, 255, 1, 1] : List Nat).length < 6 ∧
    declared_length [255, 255, 255, 255, 1, 1] > MAX_MESSAGE_SIZE ∧
    recv_frame [255, 255, 255, 255, 1, 1] =
      .error (.messageTooLarge (declared_length [255, 255, 255, 255, 1, 1])) :=
  ⟨by decide, by decide,
    (oversized_frame_rejected [255, 255, 255, 255, 1, 1]
      (by decide) rfl rfl).1 (by decide)⟩

def exHandle : SubHandle := { id := "7", closed := false }

/-- C9 counterexample: after connection `close()` the subscription map is
cleared but the caller-held handle is not marked closed, so a subsequent
`__anext__` on the empty queue blocks instead of signalling
end-of-iteration. -/
theorem iterator_after_close_counterexample :
    (tcp_close exSubState).closed = true ∧
    (tcp_close exSubState).subs = [] ∧
    exHandle.closed = false ∧
    (sub_anext exHandle []).1 = .blocked ∧
    AnextOutcome.blocked ≠ AnextOutcome.stop := by
  exact ⟨rfl, rfl, rfl, rfl, by decide⟩

/-- C9 (amended): after calling `unsubscribe()` on the handle, every
subsequent `__anext__` signals end-of-iteration; but a handle not marked
closed blocks on an empty queue, and once the subscription map is empty
(as after connection close) no dispatch ever enqueues anything, so the
iterator blocks forever rather than terminating. -/
theorem iterator_exhaustion_amended (h : SubHandle) (q : List Msg)
    (s : TcpState) (msg : Msg) (hs : s.subs = []) :
    (sub_anext (sub_handle_close h) q).1 = .stop ∧
    (h.closed = false → (sub_anext h []).1 = .blocked) ∧
    (dispatch_message s msg).subs = [] := by
  refine ⟨rfl, ?_, ?_⟩
  · intro hc
    simp [sub_anext, hc]
  · have h1 : optKeyMem s.subs msg.id = false := by
      rw [hs]
      cases msg.id <;> rfl
    unfold dispatch_message
    rw [if_neg (by simp [h1])]
    split
    · cases hid : msg.id <;> simp [hid, hs]
    · exact hs

theorem iterator_exhaustion_amended_witness :
    (tcp_close exSubState).subs = [] ∧
    (sub_anext (sub_handle_close exHandle) [exNote]).1 = .stop ∧
    (dispatch_message (tcp_close exSubState) exNote).subs = [] :=
  ⟨rfl,
   (iterator_exhaustion_amended exHandle [exNote] (tcp_close exSubState)
      exNote rfl).1,
   (iterator_exhaustion_amended exHandle [exNote] (tcp_close exSubState)
      exNote rfl).2.2⟩

def wsExample : WsState := {
  closed := false
  reconnect := true
  maxReconnectAttempts := 3
  reconnectDelay := 1
  reconnectAttempts := 0
  wsConnected := true
  recvActive := false
  pendingIds := ["1"]
  futures := [("1", .pending)] }

/-- C6 counterexample: with reconnection enabled, 3 allowed attempts and
a failing handshake, one disconnect leads to exactly 1 handshake attempt
(not 3 as the repeated-retry reading claims), and afterwards no receive
loop is active to trigger further attempts even though the attempt
counter is below the limit. -/
theorem reconnect_single_attempt_counterexample :
    (ws_handle_disconnect wsExample false).2.length = 1 ∧
    (claimed_retry_delays wsExample.reconnectDelay wsExample.maxReconnectAttempts
        (fun _ => false)).length = 3 ∧
    (ws_handle_disconnect wsExample false).2.length ≠
      (claimed_retry_delays wsExample.reconnectDelay wsExample.maxReconnectAttempts
        (fun _ => false)).length ∧
    (ws_handle_disconnect wsExample false).1.recvActive = false ∧
    (ws_handle_disconnect wsExample false).1.reconnectAttempts = 1 ∧
    (ws_handle_disconnect wsExample false).1.reconnectAttempts <
      wsExample.maxReconnectAttempts := by
  refine ⟨rfl, rfl, by decide, rfl, rfl, by decide⟩

theorem ws_reject_lookup (s : WsState) (i : String) (hi : i ∈ s.pendingIds)
    (hf : lookupA s.futures i = some .pending) :
    lookupA (s.futures.map fun p =>
      (p.1, if p.1 ∈ s.pendingIds ∧ p.2 = .pending
        then .rejected (.disconnected "Connection closed") else p.2)) i =
      some (.rejected (.disconnected "Connection closed")) := by
  rw [lookupA_map_pair (fun a w => if a ∈ s.pendingIds ∧ w = .pending
    then .rejected (.disconnected "Connection closed") else w) s.futures i, hf]
  simp [hi]

/-- C6 (amended): on an unexpected disconnect the client first fails all
pending requests; then, if reconnection is enabled and the attempt
counter is below the limit, it waits `baseDelay * 2^(attempt-1)` (with
`attempt` the incremented counter) and makes exactly one handshake
attempt — it does not loop until success or the attempt limit. -/
theorem reconnect_backoff_amended (s : WsState) (ok : Bool)
    (h : s.closed = false) :
    (∀ i ∈ s.pendingIds, lookupA s.futures i = some .pending →
        lookupA (ws_handle_disconnect s ok).1.futures i =
          some (.rejected (.disconnected "Connection closed"))) ∧
    (s.reconnect = true → s.reconnectAttempts < s.maxReconnectAttempts →
        (ws_handle_disconnect s ok).2 =
          [s.reconnectDelay * 2 ^ s.reconnectAttempts]) ∧
    (¬ (s.reconnect = true ∧ s.reconnectAttempts < s.maxReconnectAttempts) →
        (ws_handle_disconnect s ok).2 = []) := by
  refine ⟨?_, ?_, ?_⟩
  · intro i hi hf
    unfold ws_handle_disconnect
    rw [if_neg (by simp [h])]
    dsimp only
    split
    · split
      · exact ws_reject_lookup s i hi hf
      · exact ws_reject_lookup s i hi hf
    · exact ws_reject_lookup s i hi hf
  · intro hr hlt
    unfold ws_handle_disconnect
    rw [if_neg (by simp [h])]
    dsimp only
    rw [if_pos ⟨hr, hlt⟩]
    cases ok <;> simp
  · intro hn
    unfold ws_handle_disconnect
    rw [if_neg (by simp [h])]
    dsimp only
    rw [if_neg hn]

theorem reconnect_backoff_amended_witness :
    wsExample.closed = false ∧
    lookupA (ws_handle_disconnect wsExample false).1.futures "1" =
      some (.rejected (.disconnected "Connection closed")) ∧
    (ws_handle_disconnect wsExample false).2 =
      [wsExample.reconnectDelay * 2 ^ wsExample.reconnectAttempts] :=
  ⟨rfl,
   (reconnect_backoff_amended wsExample false rfl).1 "1" (by decide) (by decide),
   (reconnect_backoff_amended wsExample false rfl).2.1 rfl (by decide)⟩

end SquirrelDB
